import Mathlib

/-!
Verification of the model-construction layer of the rPPG-AntiSpoofing
repository (`model/structures.py`): a family of eight Keras architecture
classes for face presentation-attack detection.

The Keras graph-building API is embedded symbolically: a tensor in the
computation graph is a `TensorExpr` recording which layers produced it, and
a compiled model is a `KerasModel` recording its input tensors, output
tensor, optimizer, loss and metric list, exactly as passed to
`Model(...)`/`model.compile(...)` in the source.  Numeric semantics are
given to the pieces the claims need: the softmax activation, the Python
dictionary-update step of `fit`, the string formatting of `evaluate`, and
the custom triplet loss closure.
-/

set_option autoImplicit false

namespace RPPGAntiSpoofing

/-- Keras activation names used in the source (`'linear'`, `'relu'`, `'softmax'`). -/
inductive Act where
  | linear
  | relu
  | softmax
deriving DecidableEq, Repr

/-- A symbolic tensor of the computation graph: each constructor is one of the
Keras layer applications appearing in `model/structures.py`.
`l2NormalizeLambda` stands for `Lambda(lambda x: K.l2_normalize(x, axis=1))`. -/
inductive TensorExpr where
  | input (shape : List Nat) (name : Option String)
  | flatten (t : TensorExpr)
  | conv1D (filters kernelSize strides : Nat) (act : Act) (t : TensorExpr)
  | batchNormalization (t : TensorExpr)
  | activation (a : Act) (t : TensorExpr)
  | globalAveragePooling1D (t : TensorExpr)
  | concatenate (t1 t2 : TensorExpr)
  | dense (units : Nat) (act : Act) (t : TensorExpr)
  | l2NormalizeLambda (t : TensorExpr)
deriving DecidableEq, Repr

/-- The optimizer passed to `model.compile`; every class uses `Adam(lr=...)`.
The learning rate is carried as a rational, standing for the Python float. -/
inductive Optimizer where
  | adam (lr : ℚ)
deriving DecidableEq, Repr

/-- The loss argument of `model.compile`: either the string
`'categorical_crossentropy'` or the closure returned by `triplet_loss(...)`,
which captures the `embeddings` tensor (and nothing else that varies). -/
inductive LossSpec where
  | categoricalCrossentropy
  | tripletCombined (embeddings : TensorExpr)
deriving DecidableEq, Repr

/-- One entry of the `metrics=[...]` list of `model.compile`. -/
inductive Metric where
  | accuracy
  | apcer
  | bpcer
  | acer
deriving DecidableEq, Repr

/-- A compiled Keras model as assembled by a `build_model` method:
`Model(inputs, output)` followed by `model.compile(optimizer, loss, metrics)`. -/
structure KerasModel where
  inputs : List TensorExpr
  output : TensorExpr
  optimizer : Optimizer
  loss : LossSpec
  metrics : List Metric
deriving DecidableEq, Repr

namespace FlatRGB

/-- Embeds `FlatRGB.build_model` (structures.py lines 36-50): Flatten then
`Dense(2, activation='softmax')`, compiled with Adam, categorical
cross-entropy and `['accuracy', APCER, BPCER, ACER]`. -/
def build_model (learning_rate : ℚ) (input_shape : List Nat) : KerasModel :=
  let input_layer := TensorExpr.input input_shape none
  let x := TensorExpr.flatten input_layer
  let x := TensorExpr.dense 2 .softmax x
  { inputs := [input_layer]
    output := x
    optimizer := .adam learning_rate
    loss := .categoricalCrossentropy
    metrics := [.accuracy, .apcer, .bpcer, .acer] }

/-- Embeds `FlatRGB.uses_rppg` (lines 52-53). -/
def uses_rppg : Bool := false

end FlatRGB

namespace SimpleConvolutionalRGB

/-- Embeds `SimpleConvolutionalRGB.build_model` (lines 57-76). -/
def build_model (learning_rate : ℚ) (input_shape : List Nat) : KerasModel :=
  let input_layer := TensorExpr.input input_shape none
  let x := TensorExpr.conv1D 64 5 1 .linear input_layer
  let x := TensorExpr.batchNormalization x
  let x := TensorExpr.activation .relu x
  let x := TensorExpr.globalAveragePooling1D x
  let x := TensorExpr.dense 2 .softmax x
  { inputs := [input_layer]
    output := x
    optimizer := .adam learning_rate
    loss := .categoricalCrossentropy
    metrics := [.accuracy, .apcer, .bpcer, .acer] }

/-- Embeds `SimpleConvolutionalRGB.uses_rppg` (lines 78-79). -/
def uses_rppg : Bool := false

end SimpleConvolutionalRGB

namespace DeepConvolutionalRGB

/-- Embeds `DeepConvolutionalRGB.build_model` (lines 83-105). -/
def build_model (learning_rate : ℚ) (input_shape : List Nat) : KerasModel :=
  let input_layer := TensorExpr.input input_shape none
  let x := TensorExpr.conv1D 64 5 2 .linear input_layer
  let x := TensorExpr.batchNormalization x
  let x := TensorExpr.activation .relu x
  let x := TensorExpr.conv1D 128 5 2 .linear x
  let x := TensorExpr.batchNormalization x
  let x := TensorExpr.activation .relu x
  let x := TensorExpr.globalAveragePooling1D x
  let x := TensorExpr.dense 2 .softmax x
  { inputs := [input_layer]
    output := x
    optimizer := .adam learning_rate
    loss := .categoricalCrossentropy
    metrics := [.accuracy, .apcer, .bpcer, .acer] }

/-- Embeds `DeepConvolutionalRGB.uses_rppg` (lines 107-108). -/
def uses_rppg : Bool := false

end DeepConvolutionalRGB

namespace FlatRPPG

/-- Embeds `FlatRPPG.build_model` (lines 118-137): two named inputs, both flattened,
concatenated, then `Dense(2, softmax)`. -/
def build_model (learning_rate : ℚ) (input_dim : Nat) : KerasModel :=
  let input_rgb := TensorExpr.input [input_dim, 3] (some "input_rgb")
  let input_ppg := TensorExpr.input [input_dim, 1] (some "input_ppg")
  let rgb_branch := TensorExpr.flatten input_rgb
  let ppg_branch := TensorExpr.flatten input_ppg
  let combined_branch := TensorExpr.concatenate rgb_branch ppg_branch
  let combined_branch := TensorExpr.dense 2 .softmax combined_branch
  { inputs := [input_rgb, input_ppg]
    output := combined_branch
    optimizer := .adam learning_rate
    loss := .categoricalCrossentropy
    metrics := [.accuracy, .apcer, .bpcer, .acer] }

/-- Embeds `FlatRPPG.uses_rppg` (lines 139-140). -/
def uses_rppg : Bool := true

end FlatRPPG

namespace SimpleConvolutionalRPPG

/-- Embeds `SimpleConvolutionalRPPG.build_model` (lines 149-180). -/
def build_model (learning_rate : ℚ) (input_dim : Nat) : KerasModel :=
  let input_rgb := TensorExpr.input [input_dim, 3] (some "input_rgb")
  let input_ppg := TensorExpr.input [input_dim, 1] (some "input_ppg")
  let rgb_branch := TensorExpr.conv1D 64 5 1 .linear input_rgb
  let rgb_branch := TensorExpr.batchNormalization rgb_branch
  let rgb_branch := TensorExpr.activation .relu rgb_branch
  let ppg_branch := TensorExpr.conv1D 64 5 1 .linear input_ppg
  let ppg_branch := TensorExpr.batchNormalization ppg_branch
  let ppg_branch := TensorExpr.activation .relu ppg_branch
  let rgb_branch := TensorExpr.globalAveragePooling1D rgb_branch
  let ppg_branch := TensorExpr.globalAveragePooling1D ppg_branch
  let combined_branch := TensorExpr.concatenate rgb_branch ppg_branch
  let combined_branch := TensorExpr.dense 2 .softmax combined_branch
  { inputs := [input_rgb, input_ppg]
    output := combined_branch
    optimizer := .adam learning_rate
    loss := .categoricalCrossentropy
    metrics := [.accuracy, .apcer, .bpcer, .acer] }

/-- Embeds `SimpleConvolutionalRPPG.uses_rppg` (lines 182-183). -/
def uses_rppg : Bool := true

end SimpleConvolutionalRPPG

/-- The `ConvWithBN` helper defined inside `DeepConvolutionalRPPG.build_model`
and `TripletRPPG.build_model` (lines 197-200 and 280-283): Conv1D with
kernel 5 and stride 2, batch normalization, relu. -/
def ConvWithBN (input_layer : TensorExpr) (filters : Nat) : TensorExpr :=
  let x := TensorExpr.conv1D filters 5 2 .linear input_layer
  let x := TensorExpr.batchNormalization x
  TensorExpr.activation .relu x

namespace DeepConvolutionalRPPG

/-- Embeds `DeepConvolutionalRPPG.build_model` (lines 193-223). -/
def build_model (learning_rate : ℚ) (input_dim : Nat) : KerasModel :=
  let input_rgb := TensorExpr.input [input_dim, 3] (some "input_rgb")
  let input_ppg := TensorExpr.input [input_dim, 1] (some "input_ppg")
  let rgb_branch := ConvWithBN input_rgb 64
  let rgb_branch := ConvWithBN rgb_branch 128
  let ppg_branch := ConvWithBN input_ppg 64
  let ppg_branch := ConvWithBN ppg_branch 128
  let rgb_branch := TensorExpr.globalAveragePooling1D rgb_branch
  let ppg_branch := TensorExpr.globalAveragePooling1D ppg_branch
  let combined_branch := TensorExpr.concatenate rgb_branch ppg_branch
  let combined_branch := TensorExpr.dense 2 .softmax combined_branch
  { inputs := [input_rgb, input_ppg]
    output := combined_branch
    optimizer := .adam learning_rate
    loss := .categoricalCrossentropy
    metrics := [.accuracy, .apcer, .bpcer, .acer] }

/-- Embeds `DeepConvolutionalRPPG.uses_rppg` (lines 225-226). -/
def uses_rppg : Bool := true

end DeepConvolutionalRPPG

namespace TripletRGB

/-- The `embeddings` tensor of `TripletRGB.build_model` (lines 231-241):
two Conv1D/BN/relu blocks, global average pooling, then L2 normalization. -/
def embeddings (input_shape : List Nat) : TensorExpr :=
  let input_layer := TensorExpr.input input_shape none
  let e := TensorExpr.conv1D 64 5 2 .linear input_layer
  let e := TensorExpr.batchNormalization e
  let e := TensorExpr.activation .relu e
  let e := TensorExpr.conv1D 128 5 2 .linear e
  let e := TensorExpr.batchNormalization e
  let e := TensorExpr.activation .relu e
  let e := TensorExpr.globalAveragePooling1D e
  TensorExpr.l2NormalizeLambda e

/-- Embeds `TripletRGB.build_model` (lines 230-263): classification head
`Dense(2, softmax)` on the embeddings, compiled with the closure
`triplet_loss(margin=1.0)`, which captures the embeddings tensor. -/
def build_model (learning_rate : ℚ) (input_shape : List Nat) : KerasModel :=
  let emb := embeddings input_shape
  let input_layer := TensorExpr.input input_shape none
  let classification := TensorExpr.dense 2 .softmax emb
  { inputs := [input_layer]
    output := classification
    optimizer := .adam learning_rate
    loss := .tripletCombined emb
    metrics := [.accuracy, .apcer, .bpcer, .acer] }

/-- Embeds `TripletRGB.uses_rppg` (lines 265-266). -/
def uses_rppg : Bool := false

end TripletRGB

namespace TripletRPPG

/-- The `embeddings` tensor of `TripletRPPG.build_model` (lines 277-295):
two `ConvWithBN` blocks per branch, pooling, concatenation, L2 normalization. -/
def embeddings (input_dim : Nat) : TensorExpr :=
  let input_rgb := TensorExpr.input [input_dim, 3] (some "input_rgb")
  let input_ppg := TensorExpr.input [input_dim, 1] (some "input_ppg")
  let rgb_branch := ConvWithBN input_rgb 64
  let rgb_branch := ConvWithBN rgb_branch 128
  let ppg_branch := ConvWithBN input_ppg 64
  let ppg_branch := ConvWithBN ppg_branch 128
  let rgb_branch := TensorExpr.globalAveragePooling1D rgb_branch
  let ppg_branch := TensorExpr.globalAveragePooling1D ppg_branch
  let combined_branch := TensorExpr.concatenate rgb_branch ppg_branch
  TensorExpr.l2NormalizeLambda combined_branch

/-- Embeds `TripletRPPG.build_model` (lines 276-318). -/
def build_model (learning_rate : ℚ) (input_dim : Nat) : KerasModel :=
  let input_rgb := TensorExpr.input [input_dim, 3] (some "input_rgb")
  let input_ppg := TensorExpr.input [input_dim, 1] (some "input_ppg")
  let emb := embeddings input_dim
  let classification := TensorExpr.dense 2 .softmax emb
  { inputs := [input_rgb, input_ppg]
    output := classification
    optimizer := .adam learning_rate
    loss := .tripletCombined emb
    metrics := [.accuracy, .apcer, .bpcer, .acer] }

/-- Embeds `TripletRPPG.uses_rppg` (lines 320-321). -/
def uses_rppg : Bool := true

end TripletRPPG

/-- The family of architecture classes defined in `model/structures.py`. -/
inductive Arch where
  | flatRGB
  | simpleConvolutionalRGB
  | deepConvolutionalRGB
  | flatRPPG
  | simpleConvolutionalRPPG
  | deepConvolutionalRPPG
  | tripletRGB
  | tripletRPPG
deriving DecidableEq, Repr

/-- Embeds `type(self).__name__` for each class. -/
def className : Arch → String
  | .flatRGB => "FlatRGB"
  | .simpleConvolutionalRGB => "SimpleConvolutionalRGB"
  | .deepConvolutionalRGB => "DeepConvolutionalRGB"
  | .flatRPPG => "FlatRPPG"
  | .simpleConvolutionalRPPG => "SimpleConvolutionalRPPG"
  | .deepConvolutionalRPPG => "DeepConvolutionalRPPG"
  | .tripletRGB => "TripletRGB"
  | .tripletRPPG => "TripletRPPG"

/-- Model construction as dispatched by `__init__`: the RGB classes inherit
`GenericArchitecture.__init__`, which calls
`self.build_model(input_shape=(dimension, 3))` (line 18); the rPPG classes
override `__init__` and call `self.build_model(input_dim=dimension)`
(lines 116, 147, 191, 274). -/
def build_model (a : Arch) (dimension : Nat) (learning_rate : ℚ) : KerasModel :=
  match a with
  | .flatRGB => FlatRGB.build_model learning_rate [dimension, 3]
  | .simpleConvolutionalRGB => SimpleConvolutionalRGB.build_model learning_rate [dimension, 3]
  | .deepConvolutionalRGB => DeepConvolutionalRGB.build_model learning_rate [dimension, 3]
  | .flatRPPG => FlatRPPG.build_model learning_rate dimension
  | .simpleConvolutionalRPPG => SimpleConvolutionalRPPG.build_model learning_rate dimension
  | .deepConvolutionalRPPG => DeepConvolutionalRPPG.build_model learning_rate dimension
  | .tripletRGB => TripletRGB.build_model learning_rate [dimension, 3]
  | .tripletRPPG => TripletRPPG.build_model learning_rate dimension

/-- The `uses_rppg` method, dispatched to the class of the object. -/
def uses_rppg (a : Arch) : Bool :=
  match a with
  | .flatRGB => FlatRGB.uses_rppg
  | .simpleConvolutionalRGB => SimpleConvolutionalRGB.uses_rppg
  | .deepConvolutionalRGB => DeepConvolutionalRGB.uses_rppg
  | .flatRPPG => FlatRPPG.uses_rppg
  | .simpleConvolutionalRPPG => SimpleConvolutionalRPPG.uses_rppg
  | .deepConvolutionalRPPG => DeepConvolutionalRPPG.uses_rppg
  | .tripletRGB => TripletRGB.uses_rppg
  | .tripletRPPG => TripletRPPG.uses_rppg

/-- The classes whose compiled loss is the `triplet_loss(...)` closure rather
than `'categorical_crossentropy'`. -/
def isTriplet (a : Arch) : Bool :=
  match a with
  | .tripletRGB => true
  | .tripletRPPG => true
  | _ => false

/-- Holds when the model's output tensor is produced by a
`Dense(2, activation='softmax')` layer. -/
def finalLayerIsSoftmax2 (m : KerasModel) : Bool :=
  match m.output with
  | .dense 2 .softmax _ => true
  | _ => false

/-- Whether a `Concatenate` layer occurs anywhere in the history of a
tensor. -/
def hasConcatenate : TensorExpr → Bool
  | .input _ _ => false
  | .flatten t => hasConcatenate t
  | .conv1D _ _ _ _ t => hasConcatenate t
  | .batchNormalization t => hasConcatenate t
  | .activation _ t => hasConcatenate t
  | .globalAveragePooling1D t => hasConcatenate t
  | .concatenate _ _ => true
  | .dense _ _ t => hasConcatenate t
  | .l2NormalizeLambda t => hasConcatenate t

/-- Semantics of the Keras softmax activation on a length-`n` logit
vector. -/
noncomputable def softmax {n : Nat} (z : Fin n → ℝ) : Fin n → ℝ :=
  fun i => Real.exp (z i) / ∑ j, Real.exp (z j)

/-- Semantics of `K.argmax(y, axis=1)` on one 2-class row: the index of the
largest entry, ties resolved to the lower index as in TensorFlow. -/
def argmax2 (y : Fin 2 → ℚ) : Nat :=
  if y 0 < y 1 then 1 else 0

/-- Semantics of `keras.losses.categorical_crossentropy` on one sample of a
2-class batch. -/
noncomputable def categorical_crossentropy (y_true y_pred : Fin 2 → ℚ) : ℝ :=
  -(∑ i, (y_true i : ℝ) * Real.log (y_pred i))

/-- The inner closure `__triplet_loss(y_true, y_pred)` of
`TripletRGB.build_model.triplet_loss` and
`TripletRPPG.build_model.triplet_loss` (structures.py lines 246-250 and
301-305).  Here `triplet_semihard_loss` stands for
`tf.contrib.losses.metric_learning.triplet_semihard_loss`, a framework
function modelled abstractly, and `embeddings` is the captured value of the
embedding batch (batch size `B`, embedding width `E`).  The triplet
contribution is a scalar and the cross-entropy contribution is per-sample,
so their sum broadcasts over the batch. -/
noncomputable def inner_triplet_loss {B E : Nat}
    (triplet_semihard_loss : (Fin B → Nat) → (Fin B → Fin E → ℚ) → ℝ)
    (embeddings : Fin B → Fin E → ℚ)
    (y_true y_pred : Fin B → Fin 2 → ℚ) : Fin B → ℝ :=
  fun b =>
    triplet_semihard_loss (fun i => argmax2 (y_true i)) embeddings
      + categorical_crossentropy (y_true b) (y_pred b)

/-- Embeds `triplet_loss(margin=1.0)` (lines 244-252 and 299-307): returns
the inner closure; `margin` is accepted but never referenced by it. -/
noncomputable def triplet_loss {B E : Nat}
    (triplet_semihard_loss : (Fin B → Nat) → (Fin B → Fin E → ℚ) → ℝ)
    (embeddings : Fin B → Fin E → ℚ)
    (margin : ℚ) :
    (Fin B → Fin 2 → ℚ) → (Fin B → Fin 2 → ℚ) → (Fin B → ℝ) :=
  inner_triplet_loss triplet_semihard_loss embeddings

/-- Modelled from the spec: `model/metrics.py` (imported at structures.py
line 8) is missing from the given sources.  Per the spec, a metric is "a
scalar function of true/predicted label batches"; a batch row is a 2-class
one-hot or probability vector and the class of a row is its argmax.  Class 0
is taken as the attack (spoof) presentation, class 1 as bona fide
(genuine). -/
def batchClass {B : Nat} (y : Fin B → Fin 2 → ℚ) (b : Fin B) : Nat :=
  argmax2 (y b)

/-- Modelled from the spec: APCER, the Attack Presentation Classification
Error Rate, missing with `model/metrics.py` — the fraction of attack
presentations (true class 0) classified as bona fide.  (Rational division by
zero yields 0 for a batch with no attack presentations.) -/
def APCER {B : Nat} (y_true y_pred : Fin B → Fin 2 → ℚ) : ℚ :=
  let attacks := Finset.univ.filter (fun b => batchClass y_true b = 0)
  let errors := attacks.filter (fun b => batchClass y_pred b ≠ 0)
  (errors.card : ℚ) / (attacks.card : ℚ)

/-- Modelled from the spec: BPCER, the Bona-fide Presentation Classification
Error Rate, missing with `model/metrics.py` — the fraction of bona-fide
presentations (true class 1) classified as attacks. -/
def BPCER {B : Nat} (y_true y_pred : Fin B → Fin 2 → ℚ) : ℚ :=
  let bonafide := Finset.univ.filter (fun b => batchClass y_true b = 1)
  let errors := bonafide.filter (fun b => batchClass y_pred b ≠ 1)
  (errors.card : ℚ) / (bonafide.card : ℚ)

/-- Modelled from the spec: ACER, missing with `model/metrics.py` — the spec
glossary defines APCER/BPCER/ACER as the two error rates "and their
average". -/
def ACER {B : Nat} (y_true y_pred : Fin B → Fin 2 → ℚ) : ℚ :=
  (APCER y_true y_pred + BPCER y_true y_pred) / 2

/-- A Python keyword-argument value: only `verbose` (a bool) is ever
inspected by the code under verification; other values are carried
opaquely as one of these shapes. -/
inductive KwVal where
  | bool (b : Bool)
  | nat (n : Nat)
  | rat (q : ℚ)
  | str (s : String)
deriving DecidableEq, Repr

/-- Python dict assignment `d[k] = v` on a dict represented as its
insertion-ordered association list: replaces the value in place when the key
is present, appends otherwise. -/
def dictSet (l : List (String × KwVal)) (k : String) (v : KwVal) :
    List (String × KwVal) :=
  match l with
  | [] => [(k, v)]
  | (k0, v0) :: rest =>
    if k0 = k then (k, v) :: rest else (k0, v0) :: dictSet rest k v

/-- A `GenericArchitecture` (or subclass) instance after `__init__`
(lines 13-18, with the rPPG-class overrides at lines 112-116, 143-147,
187-191 and 270-274): the learning rate and verbose flag are stored on the
object and the model is built once. -/
structure GenericArchitecture where
  arch : Arch
  learning_rate : ℚ
  verbose : Bool
  model : KerasModel
deriving Repr

/-- Object construction: every `__init__` stores `lr` and `verbose` and sets
`self.model = self.build_model(...)`. -/
def init (a : Arch) (dimension : Nat) (lr : ℚ) (verbose : Bool) :
    GenericArchitecture :=
  { arch := a
    learning_rate := lr
    verbose := verbose
    model := build_model a dimension lr }

/-- The record of a delegated `self.model.fit(**kwargs)` call. -/
structure FitCall where
  kwargs : List (String × KwVal)
deriving DecidableEq, Repr

/-- Embeds `GenericArchitecture.fit` (lines 20-22): overwrites
`kwargs['verbose']` with `self.verbose`, then delegates to
`self.model.fit(**kwargs)`.  The object's fields are unchanged; the returned
`FitCall` records the delegated keyword arguments. -/
def GenericArchitecture.fit (self : GenericArchitecture)
    (kwargs : List (String × KwVal)) : GenericArchitecture × FitCall :=
  (self, ⟨dictSet kwargs "verbose" (.bool self.verbose)⟩)

/-- Keras `model.metrics_names` entries after `'loss'` (framework
behaviour): the string metric `'accuracy'` reports as `'acc'` in the Keras
generation targeted by the source, and a metric function reports under its
function name. -/
def metric_name : Metric → String
  | .accuracy => "acc"
  | .apcer => "APCER"
  | .bpcer => "BPCER"
  | .acer => "ACER"

/-- Keras `model.metrics_names`: `'loss'` followed by one name per compiled
metric. -/
def metrics_names (m : KerasModel) : List String :=
  "loss" :: m.metrics.map metric_name

/-- Python `str` of a string-keyed dict in insertion order, with a
caller-supplied rendering `fmt` for the float values. -/
def pyDictRepr (fmt : ℚ → String) (l : List (String × ℚ)) : String :=
  "\x7b"
    ++ String.intercalate ", "
        (l.map (fun p => "\x27" ++ p.1 ++ "\x27: " ++ fmt p.2))
    ++ "\x7d"

/-- Embeds `GenericArchitecture.evaluate` (lines 24-29).  `model_evaluate`
stands for the framework's `Model.evaluate`, returning one value per entry
of `metrics_names`; `fmt` stands for Python's rendering of a float value.
The method leaves the object unchanged and returns
`"{0} : {1}".format(arch_name, results)` where `results` is the dict zipping
`self.model.metrics_names` with the evaluation values. -/
def GenericArchitecture.evaluate (self : GenericArchitecture)
    (model_evaluate : KerasModel → List ℚ → List ℚ → Bool → List ℚ)
    (fmt : ℚ → String) (x y : List ℚ) : GenericArchitecture × String :=
  let arch_name := className self.arch
  let evaluation := model_evaluate self.model x y self.verbose
  let results := List.zip (metrics_names self.model) evaluation
  let str_representation := arch_name ++ " : " ++ pyDictRepr fmt results
  (self, str_representation)

/-- Embeds `GenericArchitecture.get_model` (lines 31-32). -/
def GenericArchitecture.get_model (self : GenericArchitecture) : KerasModel :=
  self.model

/-- One public method call on an architecture object after construction. -/
inductive MethodCall where
  | fitCall (kwargs : List (String × KwVal))
  | evaluateCall
      (model_evaluate : KerasModel → List ℚ → List ℚ → Bool → List ℚ)
      (fmt : ℚ → String) (x y : List ℚ)

/-- The object state after one method call (each method also returns a
value, dropped here). -/
def step (self : GenericArchitecture) : MethodCall → GenericArchitecture
  | .fitCall kwargs => (self.fit kwargs).1
  | .evaluateCall model_evaluate fmt x y =>
      (self.evaluate model_evaluate fmt x y).1

/-! ### Helper lemmas -/

/-- Neither method assigns to any field of the object. -/
theorem step_fixes_object (self : GenericArchitecture) (c : MethodCall) :
    step self c = self := by
  cases c <;> rfl

/-- Looking up a key right after a Python dict assignment of that key yields
the assigned value, whether or not the key was present before. -/
theorem lookup_dictSet (l : List (String × KwVal)) (k : String) (v : KwVal) :
    List.lookup k (dictSet l k v) = some v := by
  induction l with
  | nil => simp [dictSet, List.lookup]
  | cons p rest ih =>
    obtain ⟨k0, v0⟩ := p
    by_cases h : k0 = k
    · simp [dictSet, h, List.lookup]
    · have hne : (k == k0) = false := beq_eq_false_iff_ne.mpr (Ne.symm h)
      simp [dictSet, h, List.lookup, hne, ih]

/-- First components of a zip are the first list truncated to the second's
length. -/
theorem map_fst_zip_eq_take {α β : Type} (l1 : List α) (l2 : List β) :
    (List.zip l1 l2).map Prod.fst = l1.take l2.length := by
  induction l1 generalizing l2 with
  | nil => simp
  | cons a l1 ih =>
    cases l2 with
    | nil => simp
    | cons b l2 => simp [ih]

/-- Second components of a zip are the second list truncated to the first's
length. -/
theorem map_snd_zip_eq_take {α β : Type} (l1 : List α) (l2 : List β) :
    (List.zip l1 l2).map Prod.snd = l2.take l1.length := by
  induction l1 generalizing l2 with
  | nil => simp
  | cons a l1 ih =>
    cases l2 with
    | nil => simp
    | cons b l2 => simp [ih]

/-! ### Claims -/

/-- C1: every architecture's compiled model has a
`Dense(2, activation='softmax')` final layer, and the softmax of any 2-logit
vector is a length-2 vector of non-negative values summing to 1, i.e. a
2-class probability distribution. -/
theorem C1_final_layer_is_two_class_softmax :
    ∀ (a : Arch) (dimension : Nat) (lr : ℚ),
      finalLayerIsSoftmax2 (build_model a dimension lr) = true
    ∧ ∀ z : Fin 2 → ℝ, (∀ i, 0 ≤ softmax z i) ∧ (∑ i, softmax z i) = 1 := by
  intro a dimension lr
  constructor
  · cases a <;> rfl
  · intro z
    have hpos : 0 < ∑ j, Real.exp (z j) :=
      Finset.sum_pos (fun j _ => Real.exp_pos (z j)) ⟨0, Finset.mem_univ 0⟩
    constructor
    · intro i
      exact div_nonneg (Real.exp_pos (z i)).le hpos.le
    · unfold softmax
      rw [← Finset.sum_div]
      exact div_self (ne_of_gt hpos)

/-- C2: TripletRGB and TripletRPPG compile with the `triplet_loss(1.0)`
closure over their L2-normalized embeddings tensor, and that loss applied to
a batch equals, per sample, the triplet semihard loss of the argmax of
`y_true` and the embeddings plus the categorical cross-entropy of `y_true`
and `y_pred`. -/
theorem C2_triplet_loss_is_sum_of_two_terms :
    ∀ (dimension : Nat) (lr : ℚ),
      ((build_model .tripletRGB dimension lr).loss
          = .tripletCombined (TripletRGB.embeddings [dimension, 3])
      ∧ (build_model .tripletRPPG dimension lr).loss
          = .tripletCombined (TripletRPPG.embeddings dimension))
    ∧ ∀ (B E : Nat)
        (tsl : (Fin B → Nat) → (Fin B → Fin E → ℚ) → ℝ)
        (embeddings : Fin B → Fin E → ℚ)
        (y_true y_pred : Fin B → Fin 2 → ℚ) (b : Fin B),
        triplet_loss tsl embeddings 1 y_true y_pred b
          = tsl (fun i => argmax2 (y_true i)) embeddings
              + categorical_crossentropy (y_true b) (y_pred b) :=
  fun _ _ => ⟨⟨rfl, rfl⟩, fun _ _ _ _ _ _ _ => rfl⟩

/-- C3: on every batch of true and predicted labels, ACER equals the
arithmetic mean of APCER and BPCER. -/
theorem C3_acer_is_mean_of_apcer_bpcer :
    ∀ (B : Nat) (y_true y_pred : Fin B → Fin 2 → ℚ),
      ACER y_true y_pred = (APCER y_true y_pred + BPCER y_true y_pred) / 2 :=
  fun _ _ _ => rfl

/-- C4: the RGB classes build one input tensor of shape (D, 3); the rPPG
classes build two input tensors of shapes (D, 3) and (D, 1) named
`input_rgb` and `input_ppg`. -/
theorem C4_input_tensor_shapes_and_names :
    ∀ (D : Nat) (lr : ℚ),
      ((build_model .flatRGB D lr).inputs = [.input [D, 3] none]
      ∧ (build_model .simpleConvolutionalRGB D lr).inputs
          = [.input [D, 3] none]
      ∧ (build_model .deepConvolutionalRGB D lr).inputs
          = [.input [D, 3] none]
      ∧ (build_model .tripletRGB D lr).inputs = [.input [D, 3] none])
    ∧ ((build_model .flatRPPG D lr).inputs
          = [.input [D, 3] (some "input_rgb"),
             .input [D, 1] (some "input_ppg")]
      ∧ (build_model .simpleConvolutionalRPPG D lr).inputs
          = [.input [D, 3] (some "input_rgb"),
             .input [D, 1] (some "input_ppg")]
      ∧ (build_model .deepConvolutionalRPPG D lr).inputs
          = [.input [D, 3] (some "input_rgb"),
             .input [D, 1] (some "input_ppg")]
      ∧ (build_model .tripletRPPG D lr).inputs
          = [.input [D, 3] (some "input_rgb"),
             .input [D, 1] (some "input_ppg")]) :=
  fun _ _ => ⟨⟨rfl, rfl, rfl, rfl⟩, ⟨rfl, rfl, rfl, rfl⟩⟩

/-- C5: `uses_rppg` returns true exactly for the architectures whose built
model has two input tensors and a `Concatenate` layer in the history of its
output: true for the four rPPG classes and false for the four RGB
classes. -/
theorem C5_uses_rppg_iff_two_inputs_concatenated :
    ∀ (a : Arch) (D : Nat) (lr : ℚ),
      (uses_rppg a
        = (((build_model a D lr).inputs.length == 2)
            && hasConcatenate (build_model a D lr).output))
    ∧ (uses_rppg .flatRPPG = true
      ∧ uses_rppg .simpleConvolutionalRPPG = true
      ∧ uses_rppg .deepConvolutionalRPPG = true
      ∧ uses_rppg .tripletRPPG = true
      ∧ uses_rppg .flatRGB = false
      ∧ uses_rppg .simpleConvolutionalRGB = false
      ∧ uses_rppg .deepConvolutionalRGB = false
      ∧ uses_rppg .tripletRGB = false) := by
  intro a D lr
  refine ⟨?_, rfl, rfl, rfl, rfl, rfl, rfl, rfl, rfl⟩
  cases a <;> rfl

/-- C6: every class compiles with `Adam(lr)` at the constructor's learning
rate and the metrics list `['accuracy', APCER, BPCER, ACER]`, and every
non-Triplet class uses categorical cross-entropy as its loss. -/
theorem C6_compile_optimizer_metrics_loss :
    ∀ (a : Arch) (D : Nat) (lr : ℚ),
      (build_model a D lr).optimizer = .adam lr
    ∧ (build_model a D lr).metrics = [.accuracy, .apcer, .bpcer, .acer]
    ∧ (isTriplet a = false →
        (build_model a D lr).loss = .categoricalCrossentropy) := by
  intro a D lr
  refine ⟨?_, ?_, ?_⟩
  · cases a <;> rfl
  · cases a <;> rfl
  · cases a <;> intro h
    case tripletRGB => exact nomatch h
    case tripletRPPG => exact nomatch h
    all_goals rfl

/-- C6 witness: the compile options of `FlatRGB` at dimension 7 and learning
rate 1, with the non-Triplet hypothesis discharged by computation. -/
theorem C6_compile_optimizer_metrics_loss_witness :
    (build_model .flatRGB 7 1).optimizer = .adam 1
    ∧ (build_model .flatRGB 7 1).metrics = [.accuracy, .apcer, .bpcer, .acer]
    ∧ (build_model .flatRGB 7 1).loss = .categoricalCrossentropy :=
  ⟨(C6_compile_optimizer_metrics_loss .flatRGB 7 1).1,
   (C6_compile_optimizer_metrics_loss .flatRGB 7 1).2.1,
   (C6_compile_optimizer_metrics_loss .flatRGB 7 1).2.2 rfl⟩

/-- C7: the model is built exactly once, in `__init__`: after any sequence
of `fit`/`evaluate` calls, `get_model` still returns the model built at
construction. -/
theorem C7_model_built_once_never_replaced :
    ∀ (a : Arch) (D : Nat) (lr : ℚ) (v : Bool) (calls : List MethodCall),
      (List.foldl step (init a D lr v) calls).get_model
          = (init a D lr v).get_model
    ∧ (init a D lr v).get_model = build_model a D lr := by
  intro a D lr v calls
  have hfold : ∀ (l : List MethodCall) (s : GenericArchitecture),
      List.foldl step s l = s := by
    intro l
    induction l with
    | nil => intro s; rfl
    | cons c l ih =>
      intro s
      rw [List.foldl_cons, step_fixes_object]
      exact ih s
  exact ⟨by rw [hfold], rfl⟩

/-- C8: `triplet_loss` ignores its `margin` parameter — for any two margins
it returns the same loss function. -/
theorem C8_triplet_loss_margin_ignored :
    ∀ (B E : Nat)
      (tsl : (Fin B → Nat) → (Fin B → Fin E → ℚ) → ℝ)
      (embeddings : Fin B → Fin E → ℚ) (m1 m2 : ℚ),
      triplet_loss tsl embeddings m1 = triplet_loss tsl embeddings m2 :=
  fun _ _ _ _ _ _ => rfl

/-- C9: the `verbose` value delegated by `fit` to the underlying model is
always the flag stored on the object, which `init` sets to the constructor's
`verbose` argument — any caller-supplied `verbose` keyword is overwritten. -/
theorem C9_fit_overwrites_verbose :
    (∀ (self : GenericArchitecture) (kwargs : List (String × KwVal)),
      List.lookup "verbose" ((self.fit kwargs).2.kwargs)
          = some (.bool self.verbose))
    ∧ ∀ (a : Arch) (D : Nat) (lr : ℚ) (v : Bool),
        (init a D lr v).verbose = v :=
  ⟨fun self kwargs => lookup_dictSet kwargs "verbose" (.bool self.verbose),
   fun _ _ _ _ => rfl⟩

/-- C10: `evaluate` returns the string `"<ClassName> : <results>"` rather
than the numeric metric values, where `<results>` is the dict pairing the
model's `metrics_names`, in order, with the values of the underlying
evaluation. -/
theorem C10_evaluate_returns_formatted_string :
    ∀ (self : GenericArchitecture)
      (model_evaluate : KerasModel → List ℚ → List ℚ → Bool → List ℚ)
      (fmt : ℚ → String) (x y : List ℚ),
      (self.evaluate model_evaluate fmt x y).2
          = className self.arch ++ " : "
              ++ pyDictRepr fmt
                  (List.zip (metrics_names self.model)
                    (model_evaluate self.model x y self.verbose))
    ∧ (List.zip (metrics_names self.model)
          (model_evaluate self.model x y self.verbose)).map Prod.fst
        = (metrics_names self.model).take
            (model_evaluate self.model x y self.verbose).length
    ∧ (List.zip (metrics_names self.model)
          (model_evaluate self.model x y self.verbose)).map Prod.snd
        = (model_evaluate self.model x y self.verbose).take
            (metrics_names self.model).length :=
  fun _ _ _ _ _ => ⟨rfl, map_fst_zip_eq_take _ _, map_snd_zip_eq_take _ _⟩

end RPPGAntiSpoofing
